import Mathlib

/-!
Verification of the touch-event protocol decoder of the STM32MP157F-DK2 HAL
(`src/hal/src/hal/touch.c`, plus the coordinate rescale helper in
`src/hal/proof/week3/evdev_min.c`).

The C code is shallowly embedded: machine integers become `Int` with explicit
wrapping (`% 2^w`) at the points where the C program converts or may overflow,
C truncating division becomes `Int.tdiv`, and the out-of-bounds array accesses
that are undefined behaviour in C surface as `Except.error ()`.
-/

/-! ## Linux input-event constants (linux/input-event-codes.h) -/

def EV_SYN : Int := 0

def EV_ABS : Int := 3

def SYN_REPORT : Int := 0

def ABS_X : Int := 0

def ABS_Y : Int := 1

def ABS_PRESSURE : Int := 24

def ABS_MT_SLOT : Int := 47

def ABS_MT_POSITION_X : Int := 53

def ABS_MT_POSITION_Y : Int := 54

def ABS_MT_TRACKING_ID : Int := 57

def ABS_MT_PRESSURE : Int := 58

/-! ## HAL constants (include/hal.h) -/

def HAL_TOUCH_MAX_POINTS : Int := 2

def HAL_TOUCH_WIDTH : Int := 480

def HAL_TOUCH_HEIGHT : Int := 800

/-- Two's-complement wrap of an `Int` into the signed 32-bit range, modelling
C `int` conversion/overflow. -/
def wrap32 (n : Int) : Int := (n + 2147483648) % 4294967296 - 2147483648

/-! ## Data model -/

/-- `hal_touch_event_t`. -/
inductive TouchEvent where
  | none
  | press
  | release
  | move
deriving DecidableEq

/-- `hal_touch_point_t`: `x`/`y` are `uint16_t`, `id`/`pressure` are
`uint8_t`, `event` the classified kind, `valid` the activity flag. -/
structure TouchPoint where
  x : Int
  y : Int
  id : Int
  event : TouchEvent
  pressure : Int
  valid : Bool
deriving DecidableEq

/-- `hal_touch_data_t` with `HAL_TOUCH_MAX_POINTS = 2`: the two point slots,
`count` (`uint8_t`) and `timestamp` (`uint32_t`, milliseconds). -/
structure TouchData where
  p0 : TouchPoint
  p1 : TouchPoint
  count : Int
  timestamp : Int
deriving DecidableEq

/-- The `points` array of `hal_touch_data_t`, as a fixed-length-2 list. -/
def TouchData.points (d : TouchData) : List TouchPoint := [d.p0, d.p1]

/-- Read `points[i]`; `Option.none` is the out-of-bounds case that C would
execute as undefined behaviour. -/
def TouchData.getPoint (d : TouchData) (i : Int) : Option TouchPoint :=
  if i = 0 then Option.some d.p0
  else if i = 1 then Option.some d.p1
  else Option.none

/-- Write `points[i]`; only ever used after `getPoint` succeeded. -/
def TouchData.setPoint (d : TouchData) (i : Int) (p : TouchPoint) : TouchData :=
  if i = 0 then { d with p0 := p } else { d with p1 := p }

/-- Number of slots with `valid = true`, as recomputed by the `SYN_REPORT`
branch of `process_input_event`. -/
def countValid (d : TouchData) : Int :=
  (if d.p0.valid then 1 else 0) + (if d.p1.valid then 1 else 0)

/-- `struct input_event`: 16-bit `type` and `code`, signed 32-bit `value`,
and the `timeval` timestamp. -/
structure InputEvent where
  type : Int
  code : Int
  value : Int
  timeSec : Int
  timeUsec : Int
deriving DecidableEq

/-- The decoder state: the two `static` locals of `process_input_event`
(`current_slot`, `tracking_id`) together with the module-level
`current_touch_data`. -/
structure DecState where
  currentSlot : Int
  trackingId : Int
  touchData : TouchData
deriving DecidableEq

/-- `reset_touch_data()` result: everything zeroed, both points invalid with
event `HAL_TOUCH_EVENT_NONE`; the statics start as `current_slot = 0`,
`tracking_id = -1`. -/
def initState : DecState :=
  { currentSlot := 0
    trackingId := -1
    touchData :=
      { p0 := { x := 0, y := 0, id := 0, event := TouchEvent.none, pressure := 0, valid := false }
        p1 := { x := 0, y := 0, id := 0, event := TouchEvent.none, pressure := 0, valid := false }
        count := 0
        timestamp := 0 } }

/-! ## `process_input_event` (touch.c lines 242-336)

Transcribed branch for branch.  The returned `Bool` is the `event_processed`
flag (`HAL_TOUCH_OK` versus `HAL_TOUCH_NO_DATA`).  `Except.error ()` marks the
paths where the C code indexes `points[current_slot]` with
`current_slot < 0`: the guard in the source only checks
`current_slot < HAL_TOUCH_MAX_POINTS`, so a negative index reaches the array
access (undefined behaviour in C). -/

def processEvent (s : DecState) (e : InputEvent) : Except Unit (DecState × Bool) :=
  if e.type = EV_ABS then
    if e.code = ABS_MT_SLOT then
      let cs := e.value
      let cs := if cs ≥ HAL_TOUCH_MAX_POINTS then 0 else cs
      Except.ok ({ s with currentSlot := cs }, false)
    else if e.code = ABS_MT_TRACKING_ID then
      if e.value = -1 then
        if s.currentSlot < HAL_TOUCH_MAX_POINTS then
          match s.touchData.getPoint s.currentSlot with
          | Option.some p =>
              Except.ok
                ({ s with
                    trackingId := e.value
                    touchData := s.touchData.setPoint s.currentSlot
                      { p with valid := false, event := TouchEvent.release } }, true)
          | Option.none => Except.error ()
        else Except.ok ({ s with trackingId := e.value }, false)
      else
        if s.currentSlot < HAL_TOUCH_MAX_POINTS then
          match s.touchData.getPoint s.currentSlot with
          | Option.some p =>
              Except.ok
                ({ s with
                    trackingId := e.value
                    touchData := s.touchData.setPoint s.currentSlot
                      { p with
                          valid := true
                          id := s.currentSlot % 256
                          event := TouchEvent.press } }, true)
          | Option.none => Except.error ()
        else Except.ok ({ s with trackingId := e.value }, false)
    else if e.code = ABS_MT_POSITION_X ∨ e.code = ABS_X then
      if s.currentSlot < HAL_TOUCH_MAX_POINTS then
        match s.touchData.getPoint s.currentSlot with
        | Option.some p =>
            let newX := ((wrap32 (e.value * HAL_TOUCH_WIDTH)).tdiv 4096) % 65536
            if p.valid then
              Except.ok
                ({ s with
                    touchData := s.touchData.setPoint s.currentSlot
                      { p with x := newX, event := TouchEvent.move } }, true)
            else
              Except.ok
                ({ s with
                    touchData := s.touchData.setPoint s.currentSlot
                      { p with x := newX } }, false)
        | Option.none => Except.error ()
      else Except.ok (s, false)
    else if e.code = ABS_MT_POSITION_Y ∨ e.code = ABS_Y then
      if s.currentSlot < HAL_TOUCH_MAX_POINTS then
        match s.touchData.getPoint s.currentSlot with
        | Option.some p =>
            let newY := ((wrap32 (e.value * HAL_TOUCH_HEIGHT)).tdiv 4096) % 65536
            if p.valid then
              Except.ok
                ({ s with
                    touchData := s.touchData.setPoint s.currentSlot
                      { p with y := newY, event := TouchEvent.move } }, true)
            else
              Except.ok
                ({ s with
                    touchData := s.touchData.setPoint s.currentSlot
                      { p with y := newY } }, false)
        | Option.none => Except.error ()
      else Except.ok (s, false)
    else if e.code = ABS_MT_PRESSURE ∨ e.code = ABS_PRESSURE then
      if s.currentSlot < HAL_TOUCH_MAX_POINTS then
        match s.touchData.getPoint s.currentSlot with
        | Option.some p =>
            Except.ok
              ({ s with
                  touchData := s.touchData.setPoint s.currentSlot
                    { p with pressure := (if e.value > 255 then 255 else e.value) % 256 } },
               false)
        | Option.none => Except.error ()
      else Except.ok (s, false)
    else Except.ok (s, false)
  else if e.type = EV_SYN then
    if e.code = SYN_REPORT then
      Except.ok
        ({ s with
            touchData :=
              { s.touchData with
                  count := countValid s.touchData
                  timestamp := (e.timeSec * 1000 + e.timeUsec.tdiv 1000) % 4294967296 } },
         true)
    else Except.ok (s, false)
  else Except.ok (s, false)

/-- Frame boundary test: `EV_SYN` with code `SYN_REPORT`. -/
def isReportEnd (e : InputEvent) : Bool :=
  e.type == EV_SYN && e.code == SYN_REPORT

/-- The decoder `feed` operation of the spec: process a batch in order and
snapshot `current_touch_data` as an emitted Touch Frame at every report-end.
Stops (with the error) at the first out-of-bounds access. -/
def feed : DecState → List InputEvent → Except Unit DecState × List TouchData
  | s, [] => (Except.ok s, [])
  | s, e :: es =>
    match processEvent s e with
    | Except.error u => (Except.error u, [])
    | Except.ok (st, _) =>
      let r := feed st es
      if isReportEnd e then (r.1, st.touchData :: r.2) else r

/-- The event loop of `hal_touch_read`: process each event, OR-ing together
the `data_updated` flag. -/
def runEvents : DecState → List InputEvent → Except Unit (DecState × Bool)
  | s, [] => Except.ok (s, false)
  | s, e :: es =>
    match processEvent s e with
    | Except.error u => Except.error u
    | Except.ok (st, p) =>
      match runEvents st es with
      | Except.error u => Except.error u
      | Except.ok (sfin, q) => Except.ok (sfin, p || q)

/-- `hal_touch_status_t` values reachable from `hal_touch_read`. -/
inductive ReadStatus where
  | ok
  | invalidParam
  | notInit
  | noData
deriving DecidableEq

/-- Result of one `hal_touch_read` call: status, final decoder state, and
what was stored through the `data` out-pointer (`Option.none` = not written). -/
structure ReadResult where
  status : ReadStatus
  state : DecState
  output : Option TouchData
deriving DecidableEq

/-- `hal_touch_read` (touch.c lines 112-141).  `initialized` folds the
`touch_initialized && touch_fd >= 0` check; `dataIsNull` is the `data == NULL`
check.  After draining events it unconditionally copies
`current_touch_data` out and returns `HAL_TOUCH_OK` exactly when at least one
event was processed. -/
def hal_touch_read (initialized : Bool) (dataIsNull : Bool) (s : DecState)
    (events : List InputEvent) : Except Unit ReadResult :=
  if ¬ initialized then
    Except.ok { status := ReadStatus.notInit, state := s, output := Option.none }
  else if dataIsNull then
    Except.ok { status := ReadStatus.invalidParam, state := s, output := Option.none }
  else
    match runEvents s events with
    | Except.error u => Except.error u
    | Except.ok (sfin, updated) =>
        Except.ok
          { status := if updated then ReadStatus.ok else ReadStatus.noData
            state := sfin
            output := Option.some sfin.touchData }

/-! ## Coordinate mapper (`scale`, evdev_min.c lines 10-14)

C source: the subtractions `v - min` and `max - min` happen in `int`
(wrapping), the product is exact in `long long`, the division truncates, and
the result is cast back to `int`. -/

def scale (v vmin vmax out : Int) : Int :=
  if vmax = vmin then 0
  else wrap32 ((wrap32 (v - vmin) * out).tdiv (wrap32 (vmax - vmin)))

/-! ## Event abbreviations and concrete batches used by the claims -/

/-- A slot-select event with the given value. -/
def slotSelEv (v : Int) : InputEvent := ⟨EV_ABS, ABS_MT_SLOT, v, 0, 0⟩

/-- A tracking-id event with the given value. -/
def trackEv (v : Int) : InputEvent := ⟨EV_ABS, ABS_MT_TRACKING_ID, v, 0, 0⟩

/-- A position-X event with the given raw value. -/
def posXEv (v : Int) : InputEvent := ⟨EV_ABS, ABS_MT_POSITION_X, v, 0, 0⟩

/-- A position-Y event with the given raw value. -/
def posYEv (v : Int) : InputEvent := ⟨EV_ABS, ABS_MT_POSITION_Y, v, 0, 0⟩

/-- A pressure event with the given value. -/
def pressEv (v : Int) : InputEvent := ⟨EV_ABS, ABS_MT_PRESSURE, v, 0, 0⟩

/-- A report-end (frame boundary) event at time zero. -/
def synEv : InputEvent := ⟨EV_SYN, SYN_REPORT, 0, 0, 0⟩

/-- The three-batch press/move/release scenario of the spec, concatenated. -/
def lifecycleEvents : List InputEvent :=
  [slotSelEv 0, trackEv 5, posXEv 1000, posYEv 2000, synEv,
   slotSelEv 0, posXEv 1100, synEv,
   slotSelEv 0, trackEv (-1), synEv]

/-- A decoder state in which slot 0 holds an active contact whose pending
event is Press (as after a tracking-id assignment earlier in the frame). -/
def pressedState : DecState :=
  { currentSlot := 0
    trackingId := 5
    touchData :=
      { p0 := { x := 0, y := 0, id := 0, event := TouchEvent.press, pressure := 0, valid := true }
        p1 := { x := 0, y := 0, id := 0, event := TouchEvent.none, pressure := 0, valid := false }
        count := 1
        timestamp := 0 } }

/-! ## Helper lemmas -/

/-- An `Int` already in signed 32-bit range is fixed by `wrap32`. -/
theorem wrap32_eq_of_range (n : Int) (h1 : -2147483648 ≤ n) (h2 : n < 2147483648) :
    wrap32 n = n := by
  unfold wrap32
  omega

/-- Processing a report-end event recomputes `count` and the timestamp and
leaves everything else (including each slot's pending event) unchanged. -/
theorem reportEnd_step (s : DecState) (e : InputEvent) (h : isReportEnd e = true) :
    processEvent s e =
      Except.ok
        ({ s with
            touchData :=
              { s.touchData with
                  count := countValid s.touchData
                  timestamp := (e.timeSec * 1000 + e.timeUsec.tdiv 1000) % 4294967296 } },
         true) := by
  simp only [isReportEnd, Bool.and_eq_true, beq_iff_eq] at h
  simp [processEvent, h.1, h.2, EV_SYN, EV_ABS, SYN_REPORT]

/-! ## C3: slot-select clamping -/

/-- C3 (counterexample): a slot-select with the negative value -1 stores the
Current Slot Pointer as -1, not 0 — the claim that every out-of-range
selection (including negative values) is clamped to slot 0 is false. -/
theorem slot_select_negative_not_clamped :
    processEvent initState (slotSelEv (-1)) =
      Except.ok ({ initState with currentSlot := -1 }, false) ∧
    (-1 : Int) ≠ 0 := ⟨rfl, by decide⟩

/-- C3 (amended): a slot-select event sets the Current Slot Pointer to the
event value when it is below HAL_TOUCH_MAX_POINTS (negative values included,
stored unclamped) and to 0 when it is ≥ HAL_TOUCH_MAX_POINTS; in particular
slot-select(99) behaves as slot-select(0), and no error is raised by the
slot-select event itself. -/
theorem slot_select_clamp (s : DecState) (v : Int) :
    processEvent s (slotSelEv v) =
      Except.ok ({ s with currentSlot := if v ≥ HAL_TOUCH_MAX_POINTS then 0 else v }, false) := by
  simp [processEvent, slotSelEv]

/-! ## C4: reachability of the out-of-bounds slot access -/

/-- C4: the out-of-bounds branch of the slot-table access is reachable — a
slot-select with value -1 followed by a position-X update makes
process_input_event index points[-1], which the embedding reports as an
error. -/
theorem negative_slot_reaches_oob :
    runEvents initState [slotSelEv (-1), posXEv 100] = Except.error () := rfl

/-! ## C6: the coordinate mapper -/

/-- C6: scale returns 0 whenever the raw bounds coincide (for every raw value
and screen extent); away from that guard, and in the absence of 32-bit
overflow, it computes (raw - raw_min) * screen_extent / (raw_max - raw_min)
with truncating integer division; and scale(2048, 0, 4095, 480) = 240. -/
theorem scale_spec :
    (∀ v out m : Int, scale v m m out = 0) ∧
    (∀ v vmin vmax out : Int, vmax ≠ vmin →
      -2147483648 ≤ v - vmin → v - vmin < 2147483648 →
      -2147483648 ≤ vmax - vmin → vmax - vmin < 2147483648 →
      -2147483648 ≤ ((v - vmin) * out).tdiv (vmax - vmin) →
      ((v - vmin) * out).tdiv (vmax - vmin) < 2147483648 →
      scale v vmin vmax out = ((v - vmin) * out).tdiv (vmax - vmin)) ∧
    scale 2048 0 4095 480 = 240 := by
  refine ⟨fun v out m => by simp [scale],
    fun v vmin vmax out hne h1 h2 h3 h4 h5 h6 => ?_, by decide⟩
  unfold scale
  rw [if_neg hne, wrap32_eq_of_range (v - vmin) h1 h2,
    wrap32_eq_of_range (vmax - vmin) h3 h4, wrap32_eq_of_range _ h5 h6]

/-- C6 (witness): the guard and the rescale formula at concrete inputs. -/
theorem scale_spec_witness :
    scale 7 3 3 999 = 0 ∧ scale 100 0 4095 480 = (((100 : Int) - 0) * 480).tdiv (4095 - 0) :=
  ⟨scale_spec.1 7 999 3,
   scale_spec.2.1 100 0 4095 480 (by decide) (by decide) (by decide) (by decide)
     (by decide) (by decide) (by decide)⟩

/-! ## C7: pressure handling -/

/-- C7 (counterexample): a pressure event with value -1 stores 255 (the
uint8_t conversion of -1), not 0 — the claimed lower clamp to 0 does not
exist in the code. -/
theorem pressure_negative_not_zero :
    processEvent initState (pressEv (-1)) =
      Except.ok
        ({ initState with
            touchData := initState.touchData.setPoint 0
              { initState.touchData.p0 with pressure := 255 } }, false) ∧
    (255 : Int) ≠ 0 := ⟨rfl, by decide⟩

/-- C7 (amended): a pressure event on an in-range Current slot stores the
value clamped above at 255 and then reduced mod 256 by the uint8_t
conversion (so negative values wrap, e.g. -1 becomes 255, rather than being
clamped to 0); all other point fields — in particular the pending event —
are unchanged, and the event is not counted as processed. -/
theorem pressure_clamp_upper_only (s : DecState) (v : Int) (p : TouchPoint)
    (hp : s.touchData.getPoint s.currentSlot = Option.some p)
    (hlt : s.currentSlot < HAL_TOUCH_MAX_POINTS) :
    processEvent s (pressEv v) =
      Except.ok
        ({ s with
            touchData := s.touchData.setPoint s.currentSlot
              { p with pressure := (if v > 255 then 255 else v) % 256 } }, false) := by
  simp [processEvent, pressEv, hp, hlt, EV_ABS, EV_SYN, ABS_MT_SLOT, ABS_MT_TRACKING_ID,
    ABS_MT_POSITION_X, ABS_MT_POSITION_Y, ABS_MT_PRESSURE, ABS_X, ABS_Y, ABS_PRESSURE]

/-- C7 (witness): the amended pressure rule at the initial state with
value -300, which stores (-300) mod 256 = 212. -/
theorem pressure_clamp_upper_only_witness :
    processEvent initState (pressEv (-300)) =
      Except.ok
        ({ initState with
            touchData := initState.touchData.setPoint initState.currentSlot
              { initState.touchData.p0 with
                  pressure := (if (-300 : Int) > 255 then 255 else -300) % 256 } }, false) :=
  pressure_clamp_upper_only initState (-300) initState.touchData.p0 rfl (by decide)

/-! ## C8: frame timestamps -/

/-- C8: a report-end event with a nonnegative timestamp whose millisecond
conversion fits in uint32_t emits exactly one Touch Frame whose timestamp is
seconds * 1000 + microseconds / 1000 (truncating integer division). -/
theorem frame_timestamp_ms (s : DecState) (v sec usec : Int)
    (h1 : 0 ≤ sec) (h2 : 0 ≤ usec) (h3 : sec * 1000 + usec.tdiv 1000 < 4294967296) :
    (feed s [⟨EV_SYN, SYN_REPORT, v, sec, usec⟩]).2 =
      [{ s.touchData with
          count := countValid s.touchData
          timestamp := sec * 1000 + usec.tdiv 1000 }] := by
  have h0 : 0 ≤ sec * 1000 + usec.tdiv 1000 :=
    add_nonneg (mul_nonneg h1 (by norm_num)) (Int.tdiv_nonneg h2 (by norm_num))
  have key : (sec * 1000 + usec.tdiv 1000) % 4294967296 = sec * 1000 + usec.tdiv 1000 :=
    Int.emod_eq_of_lt h0 h3
  simp [feed, processEvent, isReportEnd, EV_SYN, EV_ABS, SYN_REPORT, key]

/-- C8 (witness): the literal of the spec, (seconds = 5, microseconds =
250000) gives timestamp_ms = 5250. -/
theorem frame_timestamp_ms_witness :
    (feed initState [⟨EV_SYN, SYN_REPORT, 0, 5, 250000⟩]).2 =
      [{ initState.touchData with
          count := countValid initState.touchData
          timestamp := 5250 }] := by
  have h := frame_timestamp_ms initState 0 5 250000 (by decide) (by decide) (by decide)
  rw [h]
  decide

/-! ## C1: behaviour at a report-end boundary -/

/-- C1 (counterexample): after a press and a frame boundary, feeding only a
further report-end yields a heartbeat frame whose slot-0 event_kind is still
Press — the pending event is not cleared to None at the boundary. -/
theorem report_end_keeps_pending_event :
    ((feed initState [trackEv 5, synEv, synEv]).2.map fun f => f.p0.event) =
      [TouchEvent.press, TouchEvent.press] ∧
    TouchEvent.press ≠ TouchEvent.none := ⟨rfl, by decide⟩

/-- C1 (amended): at a report-end the decoder emits one Touch Frame with
count recomputed and the timestamp updated, and every per-slot field —
valid, tracking id, x, y, pressure AND pending_event — persists unchanged;
hence a heartbeat report-end reproduces the previous count and points with
each slot's event_kind equal to its previous pending value (None only if it
was already None), not reset to None. -/
theorem report_end_emits_frame_pending_persists (s : DecState) (e : InputEvent)
    (h : isReportEnd e = true) :
    processEvent s e =
      Except.ok
        ({ s with
            touchData :=
              { s.touchData with
                  count := countValid s.touchData
                  timestamp := (e.timeSec * 1000 + e.timeUsec.tdiv 1000) % 4294967296 } },
         true) ∧
    ((feed s [e]).2.map fun f => (f.p0, f.p1, f.count)) =
      [(s.touchData.p0, s.touchData.p1, countValid s.touchData)] := by
  have h1 := reportEnd_step s e h
  refine ⟨h1, ?_⟩
  simp [feed, h1, h]

/-- C1 (witness): the amended boundary rule applied to a state whose slot 0
holds a pending Press. -/
theorem report_end_emits_frame_pending_persists_witness :
    processEvent pressedState synEv =
      Except.ok
        ({ pressedState with
            touchData :=
              { pressedState.touchData with
                  count := countValid pressedState.touchData
                  timestamp := (synEv.timeSec * 1000 + synEv.timeUsec.tdiv 1000) % 4294967296 } },
         true) ∧
    ((feed pressedState [synEv]).2.map fun f => (f.p0, f.p1, f.count)) =
      [(pressedState.touchData.p0, pressedState.touchData.p1, countValid pressedState.touchData)] :=
  report_end_emits_frame_pending_persists pressedState synEv rfl

/-! ## C2: position updates and the press/move lifecycle -/

/-- C2 (counterexample): the spec's three-batch lifecycle produces the
event_kind sequence Move, Move, Release — the position updates that follow
the tracking-id assignment in the first batch overwrite the pending Press,
so the claimed Press, Move, Release sequence is false. -/
theorem lifecycle_first_frame_is_move :
    ((feed initState lifecycleEvents).2.map fun f => f.p0.event) =
      [TouchEvent.move, TouchEvent.move, TouchEvent.release] ∧
    [TouchEvent.move, TouchEvent.move, TouchEvent.release] ≠
      [TouchEvent.press, TouchEvent.move, TouchEvent.release] := ⟨rfl, by decide⟩

/-- C2 (amended): a position-X update on an in-range slot that is already
valid always sets the pending event to Move — even when the pending event is
Press from the same frame (there is no press-wins guard); consequently the
spec's three-batch lifecycle yields frames with event_kind sequence
Move, Move, Release, and the third frame has valid = false and count = 0. -/
theorem position_update_overwrites_press :
    (∀ (s : DecState) (v : Int) (p : TouchPoint),
        s.touchData.getPoint s.currentSlot = Option.some p →
        s.currentSlot < HAL_TOUCH_MAX_POINTS →
        p.valid = true →
        processEvent s (posXEv v) =
          Except.ok
            ({ s with
                touchData := s.touchData.setPoint s.currentSlot
                  { p with
                      x := ((wrap32 (v * HAL_TOUCH_WIDTH)).tdiv 4096) % 65536
                      event := TouchEvent.move } }, true)) ∧
    ((feed initState lifecycleEvents).2.map fun f => (f.p0.event, f.p0.valid, f.count)) =
      [(TouchEvent.move, true, 1), (TouchEvent.move, true, 1),
       (TouchEvent.release, false, 0)] := by
  refine ⟨fun s v p hp hlt hv => ?_, rfl⟩
  simp [processEvent, posXEv, hp, hlt, hv, EV_ABS, EV_SYN, ABS_MT_SLOT, ABS_MT_TRACKING_ID,
    ABS_MT_POSITION_X, ABS_MT_POSITION_Y, ABS_MT_PRESSURE, ABS_X, ABS_Y, ABS_PRESSURE]

/-- C2 (witness): the amended position rule applied to a state whose slot 0
has a pending Press: the Press is overwritten by Move. -/
theorem position_update_overwrites_press_witness :
    processEvent pressedState (posXEv 1000) =
      Except.ok
        ({ pressedState with
            touchData := pressedState.touchData.setPoint pressedState.currentSlot
              { pressedState.touchData.p0 with
                  x := ((wrap32 (1000 * HAL_TOUCH_WIDTH)).tdiv 4096) % 65536
                  event := TouchEvent.move } }, true) :=
  position_update_overwrites_press.1 pressedState 1000 pressedState.touchData.p0 rfl
    (by decide) rfl

/-! ## Frames emitted by feed: unfolding lemmas -/

/-- One step of feed when processing the head event faults. -/
theorem feed_cons_error (s : DecState) (e : InputEvent) (es : List InputEvent) (u : Unit)
    (h : processEvent s e = Except.error u) :
    (feed s (e :: es)).2 = [] := by
  simp [feed, h]

/-- One step of feed when processing the head event succeeds: a frame is
emitted exactly at a report-end. -/
theorem feed_cons_ok (s : DecState) (e : InputEvent) (es : List InputEvent)
    (st : DecState) (b : Bool) (h : processEvent s e = Except.ok (st, b)) :
    (feed s (e :: es)).2 =
      if isReportEnd e then st.touchData :: (feed st es).2 else (feed st es).2 := by
  by_cases hre : isReportEnd e <;> simp [feed, h, hre]

/-! ## C5: the count invariant of emitted frames -/

/-- C5: every Touch Frame emitted at a report-end boundary has count equal to
the number of valid entries among its points, and its points list has fixed
length HAL_TOUCH_MAX_POINTS = 2. -/
theorem emitted_frame_count_matches_valid (s : DecState) (es : List InputEvent)
    (f : TouchData) (hf : f ∈ (feed s es).2) :
    f.count = countValid f ∧ f.points.length = 2 := by
  induction es generalizing s with
  | nil => simp [feed] at hf
  | cons e es ih =>
    cases hpe : processEvent s e with
    | error u =>
        rw [feed_cons_error s e es u hpe] at hf
        simp at hf
    | ok r =>
        obtain ⟨st, b⟩ := r
        rw [feed_cons_ok s e es st b hpe] at hf
        by_cases hre : isReportEnd e
        · rw [if_pos hre] at hf
          rcases List.mem_cons.mp hf with hEq | hMem
          · have hstep := reportEnd_step s e hre
            rw [hstep] at hpe
            simp only [Except.ok.injEq, Prod.mk.injEq] at hpe
            subst hEq
            rw [← hpe.1]
            exact ⟨by simp [countValid], by simp [TouchData.points]⟩
          · exact ih st hMem
        · rw [if_neg hre] at hf
          exact ih st hf

/-- C5 (witness): the frame emitted by a bare report-end from the initial
state satisfies the invariant. -/
theorem emitted_frame_count_matches_valid_witness :
    initState.touchData.count = countValid initState.touchData ∧
    initState.touchData.points.length = 2 :=
  emitted_frame_count_matches_valid initState [synEv] initState.touchData (by decide)

/-! ## C9: batches without synchronization events -/

/-- C9: a batch containing no Synchronization events yields no Touch Frames —
state updates accumulate silently — and feeding the empty batch returns the
state unchanged together with an empty frame sequence. -/
theorem feed_no_sync_no_frames :
    (∀ (s : DecState) (es : List InputEvent),
        (∀ e ∈ es, e.type ≠ EV_SYN) → (feed s es).2 = []) ∧
    (∀ s : DecState, feed s [] = (Except.ok s, [])) := by
  refine ⟨?_, fun s => rfl⟩
  intro s es h
  induction es generalizing s with
  | nil => rfl
  | cons e es ih =>
    have he : e.type ≠ EV_SYN := h e (List.mem_cons_self e es)
    have hre : ¬ isReportEnd e = true := by
      simp [isReportEnd, he]
    cases hpe : processEvent s e with
    | error u => exact feed_cons_error s e es u hpe
    | ok r =>
        obtain ⟨st, b⟩ := r
        rw [feed_cons_ok s e es st b hpe, if_neg hre]
        exact ih st (fun x hx => h x (List.mem_cons_of_mem e hx))

/-- C9 (witness): a slot-select-only batch emits no frame, and the empty
batch is a no-op. -/
theorem feed_no_sync_no_frames_witness :
    (feed initState [slotSelEv 1]).2 = [] ∧ feed initState [] = (Except.ok initState, []) :=
  ⟨feed_no_sync_no_frames.1 initState [slotSelEv 1] (by decide),
   feed_no_sync_no_frames.2 initState⟩

/-! ## C10: hal_touch_read output contract -/

/-- C10: on an initialized decoder with a non-null output pointer, whenever
the event loop completes, hal_touch_read copies the accumulated touch
snapshot to the output unconditionally — the status is ok exactly when at
least one event was processed, and noData otherwise, but the output is
written in both cases. -/
theorem read_always_writes_output (s : DecState) (events : List InputEvent)
    (sfin : DecState) (updated : Bool)
    (h : runEvents s events = Except.ok (sfin, updated)) :
    hal_touch_read true false s events =
      Except.ok
        { status := if updated then ReadStatus.ok else ReadStatus.noData
          state := sfin
          output := Option.some sfin.touchData } := by
  simp [hal_touch_read, h]

/-- C10 (witness): an empty read processes nothing, returns noData, and still
writes the snapshot to the output. -/
theorem read_always_writes_output_witness :
    hal_touch_read true false initState [] =
      Except.ok
        { status := ReadStatus.noData
          state := initState
          output := Option.some initState.touchData } := by
  simpa using read_always_writes_output initState [] initState false rfl
